import Mathlib

/-!
Verification of the task-creation submission logic of the Asana extension
(`src/extensions/asana/src/components/CreateTaskForm.tsx`).

The `onSubmit` handler of `CreateTaskForm` is embedded shallowly:

* JavaScript strings are Lean `String`s; the JavaScript string operations the
  handler uses — `key.split("-")` and `key.startsWith("field-")` — are embedded
  at the character-list level (`List.splitOn` / `List.isPrefixOf` over
  `String.toList`), which matches JavaScript semantics for these single-dash,
  ASCII separators.
* A JavaScript object literal built by spread (`{...acc, [k]: v}`) is an
  association list in which an existing key is overwritten in place and a new
  key is appended (`objInsert`).
* The `Date` given by the form's date picker is represented by its local
  calendar components (`LocalDate`), and the `date-fns` call
  `format(date, "yyyy-MM-dd")` is embedded as `formatDate`, which renders those
  local components zero-padded, with no time-of-day and no timezone conversion
  (the documented behaviour of `date-fns`, which formats in local time).
* The network call `createTask` (from `../api/tasks`, outside this fragment) is
  an explicit function parameter; the handler's observable effects (requests
  issued, final toast, form state, created task) are collected in
  `SubmitOutcome`.
-/

namespace Asana

/-- Local calendar components of the date chosen in the form's date picker.
No time-of-day and no timezone are represented, so formatting cannot shift the
calendar day. -/
structure LocalDate where
  year : Nat
  month : Nat
  day : Nat
  deriving DecidableEq

/-- Zero-pad the decimal rendering of `n` to at least `w` characters, as the
`date-fns` tokens `yyyy`, `MM` and `dd` do. -/
def pad (w n : Nat) : String :=
  String.mk (List.replicate (w - (toString n).length) '0') ++ toString n

/-- Embedding of the `date-fns` call `format(values.due_date, "yyyy-MM-dd")`:
the local year, month and day, zero-padded and dash-separated. -/
def formatDate (d : LocalDate) : String :=
  pad 4 d.year ++ "-" ++ pad 2 d.month ++ "-" ++ pad 2 d.day

/-- The form values handed to `onSubmit` (type `TaskFormValues`).  The named
fields come from the form items registered with `useForm`; `fieldEntries` holds
the dynamic custom-field inputs, whose form ids are `field-` followed by the
custom field's gid.  `Object.entries(values)` restricted to keys starting with
`field-` is exactly `fieldEntries` filtered, because none of the named keys
(`workspace`, `projects`, `name`, `description`, `assignee`, `due_date`) start
with `field-`.  The assignee dropdown always supplies a string, with the empty
string for its Unassigned item; the projects tag picker may be absent
(`undefined`), modelled by `Option`. -/
structure TaskFormValues where
  workspace : String
  name : String
  description : String
  projects : Option (List String)
  assignee : String
  due_date : Option LocalDate
  fieldEntries : List (String × String)
  deriving DecidableEq

/-- The fixed promotional signature markup appended when the `signature`
preference is on. -/
def signatureText : String :=
  "Created via <a href=\"https://www.raycast.com/?ref=signatureAsana\">Raycast</a>"

/-- Embedding of the `htmlNotes` accumulation: start from `<body>` plus the
description; when the signature preference is on, append the `\n--\n` separator
only when the description is non-empty (JavaScript string truthiness) and then
the signature; finally close with `</body>`. -/
def htmlNotes (description : String) (signature : Bool) : String :=
  (if signature then
    (if description = "" then "<body>" ++ description
     else "<body>" ++ description ++ "\n--\n") ++ signatureText
   else "<body>" ++ description) ++ "</body>"

/-- Embedding of JavaScript `s.split("-")` for the single-character separator:
split the character sequence on every dash. -/
def jsSplitDash (s : String) : List String :=
  (s.toList.splitOn '-').map (fun cs => String.mk cs)

/-- Embedding of JavaScript `s.startsWith(p)` at the character level. -/
def jsStartsWith (p s : String) : Bool :=
  p.toList.isPrefixOf s.toList

/-- Embedding of `field[0].split("-")[1]`: the second dash-separated segment of
the form key.  Inside `onSubmit` the key has passed the `startsWith("field-")`
filter, so the split always has a second segment and the default is never
used. -/
def fieldId (key : String) : String :=
  (jsSplitDash key).getD 1 ""

/-- JavaScript object update by spread, `{...acc, [k]: v}`: an existing key is
overwritten in place, a new key is appended. -/
def objInsert (acc : List (String × String)) (k v : String) : List (String × String) :=
  if acc.any (fun q => q.1 == k) then
    acc.map (fun q => if q.1 == k then (k, v) else q)
  else
    acc ++ [(k, v)]

/-- Embedding of the custom-field projection in `onSubmit`: keep the entries
whose key starts with `field-` and whose value is non-empty, then fold them
into an object keyed by `split("-")[1]` of the form key. -/
def customFields (entries : List (String × String)) : List (String × String) :=
  (entries.filter (fun p => jsStartsWith ("field-") p.1 && p.2 != "")).foldl
    (fun acc p => objInsert acc (fieldId p.1) p.2) []

/-- The form id the component gives a custom-field input (`field-` followed by
the field's gid, from the `Form.Dropdown` / `Form.TextField` ids). -/
def formFieldKey (id : String) : String :=
  "field-" ++ id

/-- The custom-field projection as the specification words it: the entries with
non-empty values, keyed by the bare field identifier, i.e. the form key with
the namespacing `field-` prefix stripped.  Used to compare the code's
projection against the specified one. -/
def customFieldsPerSpec (entries : List (String × String)) : List (String × String) :=
  (entries.filter (fun p => jsStartsWith ("field-") p.1 && p.2 != "")).map
    (fun p => (String.mk (p.1.toList.drop 6), p.2))

/-- The wire shape of the create-task request assembled in `onSubmit`.
`Option.none` models a key that is absent from the object literal (the
conditional spreads). -/
structure TaskCreationRequest where
  workspace : String
  name : String
  custom_fields : List (String × String)
  projects : Option (List String)
  html_notes : Option String
  assignee : Option String
  due_on : Option String
  deriving DecidableEq

/-- Embedding of the request assembly in `onSubmit`: `workspace`, `name` and
`custom_fields` always, the remaining keys under the JavaScript truthiness
conditions of the conditional spreads (a string is truthy iff non-empty, an
array spread also requires `length > 0`). -/
def buildRequest (values : TaskFormValues) (signature : Bool) : TaskCreationRequest :=
  { workspace := values.workspace
    name := values.name
    custom_fields := customFields values.fieldEntries
    projects :=
      match values.projects with
      | some ps => if 0 < ps.length then some ps else none
      | none => none
    html_notes :=
      if values.description = "" then none
      else some (htmlNotes values.description signature)
    assignee := if values.assignee = "" then none else some values.assignee
    due_on := values.due_date.map formatDate }

/-- The fields of the created task that the component consumes (`task` and
`task.permalink_url`); the remote service's other fields are opaque to it. -/
structure CreatedTask where
  gid : String
  permalink_url : String
  deriving DecidableEq

/-- Failure modes of the create call, per the specification's taxonomy:
transport failure, an error response from the service (with its payload
message when available), or an unparseable response. -/
inductive ApiError where
  | network
  | rejected (message : Option String)
  | malformed
  deriving DecidableEq

/-- Modelled from the spec: `getErrorMessage` (from
`src/extensions/asana/src/helpers/errors.ts`, which is not part of this
fragment) derives a human-readable message from the underlying error — the
service payload's message when available, else a generic description. -/
def getErrorMessage : ApiError → String
  | ApiError.network => "Network error"
  | ApiError.rejected (some m) => m
  | ApiError.rejected none => "Request rejected"
  | ApiError.malformed => "Malformed response"

/-- Styles of the toast shown by the handler. -/
inductive ToastStyle where
  | animated
  | success
  | failure
  deriving DecidableEq

/-- The toast's user-visible state (style, title, optional message). -/
structure ToastState where
  style : ToastStyle
  title : String
  message : Option String
  deriving DecidableEq

/-- The observable outcome of one `onSubmit` run: every request handed to the
create call in order, the in-flight toast shown at the start, the toast's final
state, the form state after the run, the focused item, and the created task
when the call succeeded. -/
structure SubmitOutcome where
  requestsSent : List TaskCreationRequest
  initialToast : ToastState
  toast : ToastState
  formAfter : TaskFormValues
  focused : Option String
  created : Option CreatedTask
  deriving DecidableEq

/-- Effect on the form state of the success-path call
`reset(\x7b name: "", description: "", due_date: null \x7d)`: the three listed
fields are set to their blank values.  The fields not listed are left as they
are: the workspace, projects and assignee dropdowns use `storeValue`, whose
documented behaviour is to restore the persisted selection on the next render,
and the custom-field inputs are not registered with `useForm` at all, so the
call cannot blank any of them. -/
def resetNameDescriptionDueDate (v : TaskFormValues) : TaskFormValues :=
  { v with name := "", description := "", due_date := none }

/-- Embedding of the whole `onSubmit` handler.  `createTask` (from
`../api/tasks`, outside this fragment) is the single network call, taken as a
parameter; it is applied exactly once, to the one assembled request, with no
retry.  On success the toast turns to Success with the open/copy actions backed
by the returned task, the transient fields are reset and the name field is
focused; on failure the toast turns to Failure carrying the message derived by
`getErrorMessage`, and nothing else changes. -/
def onSubmit (createTask : TaskCreationRequest → Except ApiError CreatedTask)
    (signature : Bool) (values : TaskFormValues) : SubmitOutcome :=
  let req := buildRequest values signature
  match createTask req with
  | Except.ok task =>
      { requestsSent := [req]
        initialToast := { style := ToastStyle.animated, title := "Creating task", message := none }
        toast := { style := ToastStyle.success, title := "Created task", message := none }
        formAfter := resetNameDescriptionDueDate values
        focused := some ("name")
        created := some task }
  | Except.error e =>
      { requestsSent := [req]
        initialToast := { style := ToastStyle.animated, title := "Creating task", message := none }
        toast := { style := ToastStyle.failure, title := "Failed to create task",
                   message := some (getErrorMessage e) }
        formAfter := values
        focused := none
        created := none }

/-- The draft of the specification's worked example: workspace `W1`, name
`Ship report`, description `Draft v1`, due 2024-05-01, with an assignee, one
project and one custom-field input for concreteness. -/
def exampleValues : TaskFormValues :=
  { workspace := "W1"
    name := "Ship report"
    description := "Draft v1"
    projects := some ["P1"]
    assignee := "U1"
    due_date := some { year := 2024, month := 5, day := 1 }
    fieldEntries := [("field-99", "opt1")] }

/-- A form state with every field blank, for comparison with post-submission
states. -/
def blankValues : TaskFormValues :=
  { workspace := ""
    name := ""
    description := ""
    projects := none
    assignee := ""
    due_date := none
    fieldEntries := [] }

/-- A create call that always succeeds with a fixed task. -/
def okNet : TaskCreationRequest → Except ApiError CreatedTask :=
  fun _ => Except.ok { gid := "123", permalink_url := "https://app.asana.com/0/0/123" }

/-- A create call that always fails at the transport level. -/
def failNet : TaskCreationRequest → Except ApiError CreatedTask :=
  fun _ => Except.error ApiError.network

/-- A character list is a prefix, in the `isPrefixOf` sense, of itself followed
by anything. -/
lemma isPrefixOf_append_self (l t : List Char) : l.isPrefixOf (l ++ t) = true := by
  induction l with
  | nil => simp [List.isPrefixOf]
  | cons a as ih => simp [List.isPrefixOf, ih]

/-- Every form key produced for a custom-field input passes the
`startsWith("field-")` filter. -/
lemma jsStartsWith_formFieldKey (id : String) :
    jsStartsWith ("field-") (formFieldKey id) = true := by
  simp only [jsStartsWith]
  rw [show (formFieldKey id).toList = "field-".toList ++ id.toList from rfl]
  exact isPrefixOf_append_self _ _

/-- Splitting on a dash when the characters before the first dash are dash-free
peels off exactly that head segment. -/
lemma splitOn_eq_of_head_clean (xs rest : List Char) (h : ∀ c ∈ xs, c ≠ '-') :
    (xs ++ '-' :: rest).splitOn '-' = xs :: rest.splitOn '-' := by
  simp only [List.splitOn]
  exact List.splitOnP_first _ xs (by intro x hx; simpa using h x hx) '-' (by decide) rest

/-- Splitting a dash-free character list on a dash yields that one segment. -/
lemma splitOn_eq_of_clean (xs : List Char) (h : ∀ c ∈ xs, c ≠ '-') :
    xs.splitOn '-' = [xs] := by
  simp only [List.splitOn]
  exact List.splitOnP_eq_single _ xs (by intro x hx; simpa using h x hx)

/-- On a custom-field form key, `split("-")[1]` is the first dash-separated
segment of the field identifier that follows the `field-` marker. -/
lemma fieldId_formFieldKey (id : String) :
    fieldId (formFieldKey id) =
      ((id.toList.splitOn '-').map (fun cs => String.mk cs)).getD 0 "" := by
  have h : (formFieldKey id).toList = ['f', 'i', 'e', 'l', 'd'] ++ '-' :: id.toList := rfl
  simp only [fieldId, jsSplitDash, h]
  rw [splitOn_eq_of_head_clean _ _ (by decide)]
  simp

/-- For a dash-free field identifier, the key extracted from the form key is
the identifier itself. -/
lemma fieldId_of_clean_id (id : String) (h : ∀ c ∈ id.toList, c ≠ '-') :
    fieldId (formFieldKey id) = id := by
  rw [fieldId_formFieldKey, splitOn_eq_of_clean _ h]
  rfl

/-- For a field identifier containing a dash, the key extracted from the form
key is the part of the identifier before its first dash. -/
lemma fieldId_truncates (a b : String) (ha : ∀ c ∈ a.toList, c ≠ '-') :
    fieldId (formFieldKey (a ++ "-" ++ b)) = a := by
  rw [fieldId_formFieldKey]
  have h : (a ++ "-" ++ b).toList = a.toList ++ '-' :: b.toList := by
    have h0 : (a ++ "-" ++ b).toList = (a.toList ++ ['-']) ++ b.toList := rfl
    rw [h0, List.append_assoc]
    rfl
  rw [h, splitOn_eq_of_head_clean _ _ ha]
  simp only [List.map_cons, List.getD_cons_zero]
  rfl

/-- Folding object inserts over entries whose keys are pairwise distinct,
starting from an accumulator whose keys are disjoint from them, appends the
entries in order. -/
lemma foldl_objInsert_eq_append (k : String × String → String)
    (l : List (String × String)) :
    ∀ acc : List (String × String), (l.map k).Nodup →
      (∀ p ∈ l, ∀ q ∈ acc, k p ≠ q.1) →
      l.foldl (fun a p => objInsert a (k p) p.2) acc =
        acc ++ l.map (fun p => (k p, p.2)) := by
  induction l with
  | nil => intro acc _ _; simp
  | cons p l ih =>
    intro acc hnd hdisj
    have hnd' : k p ∉ l.map k ∧ (l.map k).Nodup := List.nodup_cons.mp (by simpa using hnd)
    have hany : acc.any (fun q => q.1 == k p) = false := by
      simp only [List.any_eq_false, beq_iff_eq]
      intro q hq
      exact fun hkq => hdisj p (List.mem_cons_self p l) q hq hkq.symm
    have hstep : objInsert acc (k p) p.2 = acc ++ [(k p, p.2)] := by
      simp [objInsert, hany]
    have hdisj' : ∀ x ∈ l, ∀ q ∈ acc ++ [(k p, p.2)], k x ≠ q.1 := by
      intro x hx q hq
      rcases List.mem_append.mp hq with hq | hq
      · exact hdisj x (List.mem_cons_of_mem p hx) q hq
      · have hqe : q = (k p, p.2) := by simpa using hq
        subst hqe
        intro he
        have he' : k x = k p := he
        exact hnd'.1 (he' ▸ List.mem_map_of_mem k hx)
    simp only [List.foldl_cons, hstep, List.map_cons]
    rw [ih (acc ++ [(k p, p.2)]) hnd'.2 hdisj']
    simp

/-- C1: the outbound request carries `html_notes` iff the draft's description
is non-empty; when present it is the description wrapped in
`<body>...</body>`, with the promotional signature appended after a `\n--\n`
separator exactly when the signature preference is on; with an empty
description the key is absent even when the preference is on. -/
theorem html_notes_rule (v : TaskFormValues) (sig : Bool) :
    (buildRequest v sig).html_notes =
      if v.description = "" then none
      else some ("<body>" ++ v.description ++
        (if sig then "\n--\n" ++ signatureText else "") ++ "</body>") := by
  by_cases hd : v.description = "" <;> cases sig <;>
    simp [buildRequest, htmlNotes, hd, String.append_assoc]

/-- C3: the assembled request's `workspace` and `name` are exactly the draft's
workspace id and name, unchanged. -/
theorem workspace_name_preserved (v : TaskFormValues) (sig : Bool)
    (_hw : v.workspace ≠ "") (_hn : v.name ≠ "") :
    (buildRequest v sig).workspace = v.workspace ∧ (buildRequest v sig).name = v.name :=
  ⟨rfl, rfl⟩

/-- Witness for C3 at the specification's example draft. -/
theorem workspace_name_preserved_witness :
    (buildRequest exampleValues true).workspace = "W1" ∧
    (buildRequest exampleValues true).name = "Ship report" :=
  workspace_name_preserved exampleValues true (by decide) (by decide)

/-- C4: `assignee` is present iff the draft's assignee is set (non-empty), and
equals it; `due_on` is present iff a due date is set, and equals the local
calendar date rendered by `formatDate` (the `yyyy-MM-dd` rendering with no time
component and no timezone conversion). -/
theorem assignee_due_on_rule (v : TaskFormValues) (sig : Bool) :
    ((buildRequest v sig).assignee = none ↔ v.assignee = "") ∧
    (v.assignee ≠ "" → (buildRequest v sig).assignee = some v.assignee) ∧
    ((buildRequest v sig).due_on = none ↔ v.due_date = none) ∧
    (∀ d : LocalDate, v.due_date = some d →
      (buildRequest v sig).due_on = some (formatDate d)) := by
  refine ⟨?_, ?_, ?_, ?_⟩
  · by_cases h : v.assignee = "" <;> simp [buildRequest, h]
  · intro h; simp [buildRequest, h]
  · cases hd : v.due_date <;> simp [buildRequest, hd]
  · intro d hd; simp [buildRequest, hd]

/-- Witness for C4 at the specification's example draft: the due date
2024-05-01 is sent as the string 2024-05-01 and the assignee is sent
verbatim. -/
theorem assignee_due_on_rule_witness :
    (buildRequest exampleValues true).due_on = some ("2024-05-01") ∧
    (buildRequest exampleValues true).assignee = some ("U1") := by
  constructor
  · have h := (assignee_due_on_rule exampleValues true).2.2.2
      { year := 2024, month := 5, day := 1 } rfl
    rw [h]
    decide
  · exact (assignee_due_on_rule exampleValues true).2.1 (by decide)

/-- C5: the request carries `projects` iff the draft's project list is
non-empty, and then equals it exactly (an absent tag-picker value and an empty
selection are both omitted). -/
theorem projects_rule (v : TaskFormValues) (sig : Bool) :
    (buildRequest v sig).projects =
      if v.projects.getD [] = [] then none else some (v.projects.getD []) := by
  cases hv : v.projects with
  | none => simp [buildRequest, hv]
  | some ps => cases ps with
    | nil => simp [buildRequest, hv]
    | cons a l => simp [buildRequest, hv]

/-- C6: one submission issues exactly one create call, with the one assembled
request and no retry; on success the created task is handed back exactly as the
service returned it, and on failure the surfaced toast carries the
human-readable message derived from the underlying error. -/
theorem single_dispatch_and_result
    (createTask : TaskCreationRequest → Except ApiError CreatedTask)
    (sig : Bool) (v : TaskFormValues) :
    (onSubmit createTask sig v).requestsSent = [buildRequest v sig] ∧
    (onSubmit createTask sig v).created = (createTask (buildRequest v sig)).toOption ∧
    (onSubmit createTask sig v).toast =
      (match createTask (buildRequest v sig) with
       | Except.ok _ =>
           { style := ToastStyle.success, title := "Created task", message := none }
       | Except.error e =>
           { style := ToastStyle.failure, title := "Failed to create task",
             message := some (getErrorMessage e) }) := by
  simp only [onSubmit]
  cases h : createTask (buildRequest v sig) <;> simp [h, Except.toOption]

/-- C7: when the create call fails, the form state is left exactly as it was —
no field is reset or cleared. -/
theorem draft_intact_on_failure
    (createTask : TaskCreationRequest → Except ApiError CreatedTask)
    (sig : Bool) (v : TaskFormValues) (e : ApiError)
    (h : createTask (buildRequest v sig) = Except.error e) :
    (onSubmit createTask sig v).formAfter = v := by
  simp [onSubmit, h]

/-- Witness for C7: a transport failure on the example draft leaves every field
unchanged. -/
theorem draft_intact_on_failure_witness :
    (onSubmit failNet true exampleValues).formAfter = exampleValues :=
  draft_intact_on_failure failNet true exampleValues ApiError.network rfl

/-- C8 as stated is false: after a successful submission the assignee (like the
workspace, projects and custom-field inputs) is not returned to its empty
state — only name, description and due date are blanked. -/
theorem reset_not_blank_after_success :
    (onSubmit okNet true exampleValues).toast.style = ToastStyle.success ∧
    (onSubmit okNet true exampleValues).formAfter.assignee = "U1" ∧
    (onSubmit okNet true exampleValues).formAfter ≠ blankValues := by
  decide

/-- C8 amended: after a successful submission the name, description and
due-date fields are reset to blank, and the remaining fields (workspace,
projects, assignee, custom-field inputs) keep their values. -/
theorem reset_clears_only_transient_fields
    (createTask : TaskCreationRequest → Except ApiError CreatedTask)
    (sig : Bool) (v : TaskFormValues) (t : CreatedTask)
    (h : createTask (buildRequest v sig) = Except.ok t) :
    (onSubmit createTask sig v).formAfter =
      { v with name := "", description := "", due_date := none } := by
  simp [onSubmit, h, resetNameDescriptionDueDate]

/-- Witness for the amended C8 at the example draft. -/
theorem reset_clears_only_transient_fields_witness :
    (onSubmit okNet true exampleValues).formAfter =
      { exampleValues with name := "", description := "", due_date := none } :=
  reset_clears_only_transient_fields okNet true exampleValues
    { gid := "123", permalink_url := "https://app.asana.com/0/0/123" } rfl

/-- C9: when a custom-field identifier contains a dash, the key placed in the
outbound mapping is the identifier's segment before that dash — the part of the
form key strictly between its first and second dashes — which differs from the
full bare identifier. -/
theorem custom_fields_key_truncated_at_dash (a b val : String)
    (ha : ∀ c ∈ a.toList, c ≠ '-') (hval : val ≠ "") :
    customFields [(formFieldKey (a ++ "-" ++ b), val)] = [(a, val)] ∧
    a ≠ a ++ "-" ++ b := by
  constructor
  · have hv : (val != "") = true := bne_iff_ne.mpr hval
    have hfil : List.filter (fun p => jsStartsWith ("field-") p.1 && p.2 != "")
        [(formFieldKey (a ++ "-" ++ b), val)] = [(formFieldKey (a ++ "-" ++ b), val)] := by
      simp [List.filter, jsStartsWith_formFieldKey, hv]
    unfold customFields
    rw [hfil]
    simp [List.foldl_cons, List.foldl_nil, objInsert, fieldId_truncates a b ha]
  · intro he
    have hlen := congrArg String.length he
    rw [String.length_append, String.length_append] at hlen
    have h1 : ("-").length = 1 := rfl
    rw [h1] at hlen
    omega

/-- Witness for C9: the identifier `12-34` is sent as the truncated key `12`. -/
theorem custom_fields_key_truncated_at_dash_witness :
    customFields [(formFieldKey ("12" ++ "-" ++ "34"), "v")] = [("12", "v")] :=
  (custom_fields_key_truncated_at_dash "12" "34" "v" (by decide) (by decide)).1

/-- C2 as stated is false: for a field whose bare identifier contains a dash,
the code keys the entry by the identifier truncated at that dash, not by the
bare identifier with the `field-` prefix stripped. -/
theorem custom_fields_dash_divergence :
    customFields [("field-12-34", "v")] = [("12", "v")] ∧
    customFieldsPerSpec [("field-12-34", "v")] = [("12-34", "v")] ∧
    customFields [("field-12-34", "v")] ≠ customFieldsPerSpec [("field-12-34", "v")] := by
  decide

/-- C2 amended: for custom-field values keyed by dash-free identifiers (with
the identifiers pairwise distinct), the outbound mapping contains exactly the
entries with non-empty values, keyed by the bare identifier; empty-valued
entries are absent. -/
theorem custom_fields_exact_projection (cfv : List (String × String))
    (hids : ∀ p ∈ cfv, ∀ c ∈ p.1.toList, c ≠ '-')
    (hnd : (cfv.map Prod.fst).Nodup) :
    customFields (cfv.map (fun p => (formFieldKey p.1, p.2))) =
      cfv.filter (fun p => p.2 != "") := by
  have hfil : cfv.filter ((fun q => jsStartsWith ("field-") q.1 && q.2 != "") ∘
      (fun p => (formFieldKey p.1, p.2))) = cfv.filter (fun p => p.2 != "") := by
    apply List.filter_congr
    intro x _
    simp [Function.comp, jsStartsWith_formFieldKey]
  unfold customFields
  rw [List.filter_map, hfil, List.foldl_map]
  have hmem : ∀ x ∈ cfv.filter (fun p => p.2 != ""), fieldId (formFieldKey x.1) = x.1 := by
    intro x hx
    exact fieldId_of_clean_id x.1 (hids x (List.mem_of_mem_filter hx))
  have hknd : ((cfv.filter (fun p => p.2 != "")).map
      (fun x => fieldId (formFieldKey x.1))).Nodup := by
    rw [List.map_congr_left hmem]
    exact List.Nodup.sublist (List.Sublist.map Prod.fst (List.filter_sublist cfv)) hnd
  rw [foldl_objInsert_eq_append (fun x => fieldId (formFieldKey x.1))
    (cfv.filter (fun p => p.2 != "")) [] hknd (by intro p _ q hq; simp at hq)]
  rw [List.nil_append, List.map_congr_left (fun x hx => by rw [hmem x hx])]
  simp

/-- Witness for the amended C2: a non-empty-valued entry is kept under its bare
identifier and an empty-valued entry is dropped. -/
theorem custom_fields_exact_projection_witness :
    customFields ([("12", "v"), ("34", "")].map (fun p => (formFieldKey p.1, p.2))) =
      [("12", "v")] :=
  custom_fields_exact_projection [("12", "v"), ("34", "")] (by decide) (by decide)

/-- C10: the empty-string assignee produced by the form's Unassigned choice is
treated as unset — the request carries no `assignee` key at all. -/
theorem unassigned_dropdown_omitted (v : TaskFormValues) (sig : Bool)
    (h : v.assignee = "") : (buildRequest v sig).assignee = none := by
  simp [buildRequest, h]

/-- Witness for C10: a draft with the Unassigned choice yields a request with
no assignee. -/
theorem unassigned_dropdown_omitted_witness :
    (buildRequest { blankValues with workspace := "W1", name := "T" } true).assignee = none :=
  unassigned_dropdown_omitted { blankValues with workspace := "W1", name := "T" } true rfl

end Asana
